import Mathlib

/-!
Verification of the DP_Trade_Calc service (src/main.py): a single read-only
HTTP endpoint `/view` backed by a database view, protected by a static API
key, with a single-slot TTL cache.

The embedding is a shallow one:
* time is `Nat` (an abstract timeline; `datetime.utcnow()` becomes a `now`
  parameter, `timedelta(seconds=ttl)` becomes `+ ttl`);
* the two module-level globals `cache_data : Option (List Row)` and
  `cache_expiry : Option Nat` form a `CacheState` threaded explicitly;
* the external database fetch is a parameter
  `fetch : Int → Except String (List Row)`; `Except.error msg` models a
  raised exception with `str(e) = msg`;
* each cache-layer call additionally reports `fetchCount`, the number of
  underlying fetch attempts it performed (0 or 1), so that "no fetch
  occurs" is observable;
* rows are an abstract type `Row` (the source treats rows as opaque dicts).
-/

namespace DPTradeCalc

/-- The two module-level cache globals of src/main.py:
`cache_data = None` / `cache_expiry = None` initially;
`cache_data` holds the last fetched row list, `cache_expiry` the expiry instant. -/
structure CacheState (Row : Type) where
  cache_data : Option (List Row)
  cache_expiry : Option Nat
deriving Repr, DecidableEq

/-- Result of one `get_cached_data` call: the returned value (or the
propagated exception), the cache state after the call, and how many
underlying fetch attempts were made during the call (0 or 1). -/
structure GetResult (Row : Type) where
  result : Except String (List Row)
  state : CacheState Row
  fetchCount : Nat
deriving Repr

/-- The Python truthiness test guarding the cache hit in `get_cached_data`:
`cache_data and cache_expiry and now < cache_expiry`.
`cache_data` is truthy iff it is a non-empty list (an empty list is falsy);
a `datetime` object is always truthy, so `cache_expiry` is truthy iff not None. -/
def cacheHit {Row : Type} (st : CacheState Row) (now : Nat) : Bool :=
  match st.cache_data, st.cache_expiry with
  | some l, some e => !l.isEmpty && decide (now < e)
  | _, _ => false

/-- The refresh path of `get_cached_data` (src/main.py lines 65-68):
`data = fetch_view_data(limit); cache_data = data;
cache_expiry = now + timedelta(seconds=CACHE_TTL); return data`.
If the fetch raises, the assignments never execute: the globals keep their
previous values and the exception propagates. Either way one fetch attempt
was made. -/
def refreshCache {Row : Type} (fetch : Int → Except String (List Row))
    (ttl now : Nat) (limit : Int) (st : CacheState Row) : GetResult Row :=
  match fetch limit with
  | Except.ok data => ⟨Except.ok data, ⟨some data, some (now + ttl)⟩, 1⟩
  | Except.error e => ⟨Except.error e, st, 1⟩

/-- `get_cached_data(limit)` (src/main.py lines 59-68): return the cached
rows when the truthiness guard holds, else refresh via the fetch. -/
def get_cached_data {Row : Type} (fetch : Int → Except String (List Row))
    (ttl now : Nat) (limit : Int) (st : CacheState Row) : GetResult Row :=
  if cacheHit st now then ⟨Except.ok (st.cache_data.getD []), st, 0⟩
  else refreshCache fetch ttl now limit st

/-- Python list slicing `l[:k]` for an `int` k, as used in `read_view`
(`rows[:limit]`): a non-negative stop takes the first `k` elements
(clamped to the length); a negative stop drops the last `|k|` elements. -/
def pySlice {Row : Type} (l : List Row) (k : Int) : List Row :=
  if 0 ≤ k then l.take k.toNat
  else l.take (l.length - (-k).toNat)

/-- Outcome of one auth layer: either the extracted/validated key, or an
HTTPException with its status code and detail message. -/
inductive AuthResult where
  | passed (key : String)
  | rejected (statusCode : Nat) (detail : String)
deriving Repr, DecidableEq

/-- `fastapi.security.APIKeyHeader(name="X-API-Key", auto_error=True)`
(src/main.py line 23): the library dependency reads the header; when the
header is absent or its value is falsy (the empty string) it raises
`HTTPException(403, "Not authenticated")`; otherwise it yields the value. -/
def api_key_header (header : Option String) : AuthResult :=
  match header with
  | none => AuthResult.rejected 403 "Not authenticated"
  | some k => if k = "" then AuthResult.rejected 403 "Not authenticated"
              else AuthResult.passed k

/-- `require_api_key` (src/main.py lines 25-31): compares the extracted
header value with the configured secret (`secrets.compare_digest`, which is
functionally string equality) and raises
`HTTPException(403, "Invalid API Key")` on mismatch. -/
def require_api_key (secret k : String) : AuthResult :=
  if k = secret then AuthResult.passed k
  else AuthResult.rejected 403 "Invalid API Key"

/-- One HTTP response of the `/view` route: status code, the `rows` payload
of a 200 response, or the error/detail message of a 403/500 response. -/
structure HttpResponse (Row : Type) where
  statusCode : Nat
  rows : Option (List Row)
  errorMsg : Option String
deriving Repr, DecidableEq

/-- `read_view` (src/main.py lines 83-89), with its dependency chain:
the `X-API-Key` header is extracted (auto_error) and checked by
`require_api_key`; then `rows = get_cached_data(limit)` and the route
returns `{"rows": rows[:limit]}`, or on a raised fetch exception a
`JSONResponse(500, {"error": str(e)})`. The result carries the response,
the cache state after the request, and the number of fetch attempts. -/
def read_view {Row : Type} (fetch : Int → Except String (List Row))
    (ttl now : Nat) (secret : String) (header : Option String) (limit : Int)
    (st : CacheState Row) : HttpResponse Row × CacheState Row × Nat :=
  match api_key_header header with
  | AuthResult.rejected s d => (⟨s, none, some d⟩, st, 0)
  | AuthResult.passed k =>
    match require_api_key secret k with
    | AuthResult.rejected s d => (⟨s, none, some d⟩, st, 0)
    | AuthResult.passed _ =>
      match get_cached_data fetch ttl now limit st with
      | ⟨Except.ok rows, st2, c⟩ => (⟨200, some (pySlice rows limit), none⟩, st2, c)
      | ⟨Except.error e, st2, c⟩ => (⟨500, none, some e⟩, st2, c)

/-- `preload_cache` (src/main.py lines 71-76): fetches with the literal
limit 100 and sets `cache_expiry = utcnow() + timedelta(seconds=CACHE_TTL)`.
If the fetch raises, the globals are not assigned and the startup event
fails. The second component records the fetch limits issued (always
`[100]` on success). -/
def preload_cache {Row : Type} (fetch : Int → Except String (List Row))
    (ttl now : Nat) : Except String (CacheState Row × List Int) :=
  match fetch 100 with
  | Except.ok d => Except.ok (⟨some d, some (now + ttl)⟩, [100])
  | Except.error e => Except.error e

/-- Modelled from the spec: the Data Source contract (section 4.2). The SQL
query `SELECT * FROM VORP_Latest LIMIT :limit` is executed by the external
database engine, which is not part of src/: for a non-negative limit it
returns the first `limit` rows of the view in the natural order of the view,
fully materialized. -/
def fetch_view_data {Row : Type} (view : List Row) (limit : Nat) : List Row :=
  view.take limit

/-- Serve a list of requests sequentially against the cache slot. Each
request is (arrival time, limit query parameter, X-API-Key header). Returns
the list of fetch limits issued by the requests, in order, and the final
cache state. -/
def serveRequests {Row : Type} (fetch : Int → Except String (List Row))
    (ttl : Nat) (secret : String) (reqs : List (Nat × Int × Option String))
    (st : CacheState Row) : List Int × CacheState Row :=
  match reqs with
  | [] => ([], st)
  | (now, limit, header) :: rest =>
    let r := read_view fetch ttl now secret header limit st
    let tail := serveRequests fetch ttl secret rest r.2.1
    ((if r.2.2 = 1 then [limit] else []) ++ tail.1, tail.2)

/-- Modelled from the spec: the process lifecycle (sections 4.1 and 5).
The `@app.on_event("startup")` hook — framework behavior external to the
route code — runs `preload_cache` exactly once, before any request is
served; then requests are handled sequentially. Returns the full list of
fetch limits issued by the process, in order, and the final cache state. -/
def processRun {Row : Type} (fetch : Int → Except String (List Row))
    (ttl t0 : Nat) (secret : String) (reqs : List (Nat × Int × Option String)) :
    Except String (List Int × CacheState Row) :=
  match (preload_cache fetch ttl t0 : Except String (CacheState Row × List Int)) with
  | Except.error e => Except.error e
  | Except.ok (st, plog) =>
    let s := serveRequests fetch ttl secret reqs st
    Except.ok (plog ++ s.1, s.2)

/-! ## Helper lemmas -/

/-- The truthiness guard holds when the cache holds a non-empty list and a
not-yet-reached expiry. -/
theorem cacheHit_true_of {Row : Type} {st : CacheState Row} {l : List Row} {e now : Nat}
    (hd : st.cache_data = some l) (hexp : st.cache_expiry = some e)
    (hne : l ≠ []) (hlt : now < e) : cacheHit st now = true := by
  unfold cacheHit
  rw [hd, hexp]
  cases l with
  | nil => exact absurd rfl hne
  | cons a t => simp [hlt]

/-- On a hit the cached list is returned unchanged, the state is untouched
and no fetch happens. -/
theorem get_cached_data_hit {Row : Type} (fetch : Int → Except String (List Row))
    (ttl : Nat) (limit : Int) {st : CacheState Row} {l : List Row} {e now : Nat}
    (hd : st.cache_data = some l) (hexp : st.cache_expiry = some e)
    (hne : l ≠ []) (hlt : now < e) :
    get_cached_data fetch ttl now limit st = ⟨Except.ok l, st, 0⟩ := by
  unfold get_cached_data
  rw [cacheHit_true_of hd hexp hne hlt]
  simp [hd]

/-- When the guard fails, `get_cached_data` is the refresh path. -/
theorem get_cached_data_miss {Row : Type} (fetch : Int → Except String (List Row))
    (ttl : Nat) (limit : Int) {st : CacheState Row} {now : Nat}
    (hm : cacheHit st now = false) :
    get_cached_data fetch ttl now limit st = refreshCache fetch ttl now limit st := by
  unfold get_cached_data
  rw [hm]
  simp

/-- The refresh path always makes exactly one fetch attempt. -/
theorem refreshCache_fetchCount {Row : Type} (fetch : Int → Except String (List Row))
    (ttl now : Nat) (limit : Int) (st : CacheState Row) :
    (refreshCache fetch ttl now limit st).fetchCount = 1 := by
  unfold refreshCache
  cases fetch limit <;> rfl

/-- A cache whose snapshot is the empty list never passes the guard. -/
theorem cacheHit_false_of_empty {Row : Type} {st : CacheState Row} (now : Nat)
    (hd : st.cache_data = some []) : cacheHit st now = false := by
  unfold cacheHit
  rw [hd]
  cases hexp : st.cache_expiry <;> simp

/-- The slice `l[:k]` for non-negative `k` has at most `k` elements. -/
theorem pySlice_length_le_of_nonneg {Row : Type} (l : List Row) (k : Int) (hk : 0 ≤ k) :
    ((pySlice l k).length : Int) ≤ k := by
  unfold pySlice
  rw [if_pos hk]
  calc ((l.take k.toNat).length : Int) ≤ (k.toNat : Int) := by
        exact_mod_cast List.length_take_le k.toNat l
    _ = k := Int.toNat_of_nonneg hk

/-- The slice `l[:k]` for `k` at least the length of `l` is all of `l`. -/
theorem pySlice_of_length_le {Row : Type} (l : List Row) (k : Int)
    (hk : (l.length : Int) ≤ k) : pySlice l k = l := by
  have h0 : (0 : Int) ≤ k := le_trans (Int.natCast_nonneg _) hk
  unfold pySlice
  rw [if_pos h0]
  exact List.take_of_length_le ((Int.le_toNat h0).mpr hk)

/-- A non-empty header value passes the header extraction. -/
theorem api_key_header_passes {k : String} (hk : k ≠ "") :
    api_key_header (some k) = AuthResult.passed k := by
  simp [api_key_header, hk]

/-- A value equal to the secret passes `require_api_key`. -/
theorem require_api_key_passes {secret k : String} (hks : k = secret) :
    require_api_key secret k = AuthResult.passed k := by
  simp [require_api_key, hks]

/-- With a valid key, `read_view` forwards a successful cache-layer result
as a 200 response carrying the sliced rows. -/
theorem read_view_auth_ok_of_ok {Row : Type} (fetch : Int → Except String (List Row))
    (ttl now : Nat) (secret k : String) (limit : Int) (st : CacheState Row)
    (rows : List Row) (st2 : CacheState Row) (c : Nat)
    (hk : k ≠ "") (hks : k = secret)
    (hget : get_cached_data fetch ttl now limit st = ⟨Except.ok rows, st2, c⟩) :
    read_view fetch ttl now secret (some k) limit st =
      (⟨200, some (pySlice rows limit), none⟩, st2, c) := by
  unfold read_view
  simp only [api_key_header_passes hk, require_api_key_passes hks, hget]

/-- With a valid key, `read_view` converts a raised fetch error into a 500
response whose body carries the error message. -/
theorem read_view_auth_ok_of_error {Row : Type} (fetch : Int → Except String (List Row))
    (ttl now : Nat) (secret k : String) (limit : Int) (st : CacheState Row)
    (msg : String) (st2 : CacheState Row) (c : Nat)
    (hk : k ≠ "") (hks : k = secret)
    (hget : get_cached_data fetch ttl now limit st = ⟨Except.error msg, st2, c⟩) :
    read_view fetch ttl now secret (some k) limit st =
      (⟨500, none, some msg⟩, st2, c) := by
  unfold read_view
  simp only [api_key_header_passes hk, require_api_key_passes hks, hget]

/-! ## C1: cache hit / refresh behavior of get_cached_data -/

/-- C1 counterexample: the claim "if a cache entry exists and the current
time is strictly before its expiry, the cached rows are returned and no
fetch occurs" fails when the stored snapshot is the empty list. With cache
state (some [], some 100) and now = 50 < 100, a cache entry exists and is
unexpired, yet the call performs a fetch (fetchCount = 1) and returns the
freshly fetched rows [7], not the cached []. -/
theorem C1_refuted_on_empty_snapshot :
    (⟨some [], some 100⟩ : CacheState Nat).cache_data = some [] ∧
    (⟨some [], some 100⟩ : CacheState Nat).cache_expiry = some 100 ∧
    50 < 100 ∧
    (get_cached_data (fun _ => Except.ok [7]) 60 50 3
        (⟨some [], some 100⟩ : CacheState Nat)).fetchCount = 1 ∧
    (get_cached_data (fun _ => Except.ok [7]) 60 50 3
        (⟨some [], some 100⟩ : CacheState Nat)).result = Except.ok [7] :=
  ⟨rfl, rfl, by omega, rfl, rfl⟩

/-- C1 (amended): if a cache entry with NON-EMPTY rows exists and the
current time is strictly before its expiry, the cached rows are returned
and no fetch occurs; otherwise the Data Source is fetched with `limit`, the
result is stored with expiry = now + CACHE_TTL, and that result is
returned. In particular, with TTL = 60 and a non-empty snapshot cached at
time T, a request at T+30 returns the same data with no new fetch, and a
request at T+61 performs exactly one new fetch. -/
theorem get_cached_data_spec {Row : Type} (fetch : Int → Except String (List Row))
    (ttl now : Nat) (limit : Int) (st : CacheState Row) :
    (∀ (l : List Row) (e : Nat), st.cache_data = some l → st.cache_expiry = some e →
        l ≠ [] → now < e →
        get_cached_data fetch ttl now limit st = ⟨Except.ok l, st, 0⟩) ∧
    (cacheHit st now = false → ∀ d : List Row, fetch limit = Except.ok d →
        get_cached_data fetch ttl now limit st =
          ⟨Except.ok d, ⟨some d, some (now + ttl)⟩, 1⟩) ∧
    (∀ (T : Nat) (d : List Row), d ≠ [] →
        get_cached_data fetch 60 (T + 30) limit ⟨some d, some (T + 60)⟩ =
          ⟨Except.ok d, ⟨some d, some (T + 60)⟩, 0⟩) ∧
    (∀ (T : Nat) (d : List Row),
        (get_cached_data fetch 60 (T + 61) limit ⟨some d, some (T + 60)⟩).fetchCount = 1) := by
  refine ⟨?_, ?_, ?_, ?_⟩
  · intro l e hd hexp hne hlt
    exact get_cached_data_hit fetch ttl limit hd hexp hne hlt
  · intro hm d hfd
    rw [get_cached_data_miss fetch ttl limit hm]
    unfold refreshCache
    rw [hfd]
  · intro T d hne
    exact get_cached_data_hit fetch 60 limit rfl rfl hne (by omega)
  · intro T d
    have hm : cacheHit (⟨some d, some (T + 60)⟩ : CacheState Row) (T + 61) = false := by
      unfold cacheHit
      have : ¬ (T + 61 < T + 60) := by omega
      simp [this]
    rw [get_cached_data_miss fetch 60 limit hm]
    exact refreshCache_fetchCount fetch 60 (T + 61) limit _

/-- Witness for C1 (amended): a concrete hit at now = 30 < 60 returning the
cached rows with no fetch, and a concrete expired refresh at now = 90
storing the fetched rows with expiry 90 + 60. -/
theorem get_cached_data_spec_witness :
    get_cached_data (fun _ => Except.ok [5]) 60 30 7
        (⟨some [1, 2], some 60⟩ : CacheState Nat) =
      ⟨Except.ok [1, 2], ⟨some [1, 2], some 60⟩, 0⟩ ∧
    get_cached_data (fun _ => Except.ok [5]) 60 90 7
        (⟨some [1, 2], some 60⟩ : CacheState Nat) =
      ⟨Except.ok [5], ⟨some [5], some 150⟩, 1⟩ :=
  ⟨(get_cached_data_spec (fun _ => Except.ok [5]) 60 30 7 _).1 [1, 2] 60 rfl rfl
      (by simp) (by omega),
   (get_cached_data_spec (fun _ => Except.ok [5]) 60 90 7 _).2.1 (by decide) [5] rfl⟩

/-! ## C3: a failed fetch leaves the cache untouched and propagates -/

/-- C3: when the guard fails (so the fetch is invoked) and the fetch raises,
`get_cached_data` propagates the error unchanged and the cache state after
the call is exactly the state before it — the failed refresh overwrites
nothing. -/
theorem fetch_error_preserves_cache {Row : Type} (fetch : Int → Except String (List Row))
    (ttl now : Nat) (limit : Int) (st : CacheState Row) (msg : String)
    (hm : cacheHit st now = false) (herr : fetch limit = Except.error msg) :
    get_cached_data fetch ttl now limit st = ⟨Except.error msg, st, 1⟩ := by
  rw [get_cached_data_miss fetch ttl limit hm]
  unfold refreshCache
  rw [herr]

/-- Witness for C3: a concrete expired cache plus a raising fetch leaves
(cache_data, cache_expiry) = (some [3], some 4) intact and returns the
error. -/
theorem fetch_error_preserves_cache_witness :
    get_cached_data (fun _ => Except.error "boom") 60 10 5
        (⟨some [3], some 4⟩ : CacheState Nat) =
      ⟨Except.error "boom", ⟨some [3], some 4⟩, 1⟩ :=
  fetch_error_preserves_cache (fun _ => Except.error "boom") 60 10 5 _ "boom"
    (by decide) rfl

/-! ## C9: an empty snapshot is never served from cache -/

/-- C9: if the cache slot holds the empty row list then every call to
`get_cached_data` performs a fetch, even when the current time is strictly
before the stored expiry: the Python truthiness guard `cache_data and ...`
is false on an empty list. -/
theorem empty_snapshot_always_fetches {Row : Type} (fetch : Int → Except String (List Row))
    (ttl now : Nat) (limit : Int) (st : CacheState Row) (e : Nat)
    (hd : st.cache_data = some []) (hexp : st.cache_expiry = some e) (hlt : now < e) :
    (get_cached_data fetch ttl now limit st).fetchCount = 1 := by
  rw [get_cached_data_miss fetch ttl limit (cacheHit_false_of_empty now hd)]
  exact refreshCache_fetchCount fetch ttl now limit st

/-- Witness for C9: an empty snapshot with expiry 100 still triggers a
fetch at now = 10 < 100. -/
theorem empty_snapshot_always_fetches_witness :
    (get_cached_data (fun _ => Except.ok [4]) 60 10 5
        (⟨some [], some 100⟩ : CacheState Nat)).fetchCount = 1 :=
  empty_snapshot_always_fetches (fun _ => Except.ok [4]) 60 10 5 _ 100 rfl rfl
    (by omega)

/-! ## C5: the request-time limit is ignored on a cache hit -/

/-- C5: on a cache hit, `get_cached_data` returns the stored rows unchanged
for every value of the `limit` of the current call (the limit only reaches the
fetch, which is skipped); consequently a `/view` request asking for at
least as many rows as are cached receives exactly the cached rows until the
TTL expires. -/
theorem cache_hit_ignores_limit {Row : Type} (fetch : Int → Except String (List Row))
    (ttl now : Nat) (secret k : String) (st : CacheState Row) (l : List Row) (e : Nat)
    (hd : st.cache_data = some l) (hexp : st.cache_expiry = some e)
    (hne : l ≠ []) (hlt : now < e) (hk : k ≠ "") (hks : k = secret) :
    (∀ limit : Int, get_cached_data fetch ttl now limit st = ⟨Except.ok l, st, 0⟩) ∧
    (∀ limit : Int, (l.length : Int) ≤ limit →
        read_view fetch ttl now secret (some k) limit st =
          (⟨200, some l, none⟩, st, 0)) := by
  have hhit : ∀ limit : Int, get_cached_data fetch ttl now limit st = ⟨Except.ok l, st, 0⟩ :=
    fun limit => get_cached_data_hit fetch ttl limit hd hexp hne hlt
  refine ⟨hhit, ?_⟩
  intro limit hlim
  rw [read_view_auth_ok_of_ok fetch ttl now secret k limit st l st 0 hk hks (hhit limit),
    pySlice_of_length_le l limit hlim]

/-- Witness for C5: three cached rows served in full to a request asking
for five, without any fetch. -/
theorem cache_hit_ignores_limit_witness :
    read_view (fun _ => Except.ok ([] : List Nat)) 60 10 "k1" (some "k1") 5
        (⟨some [1, 2, 3], some 50⟩ : CacheState Nat) =
      (⟨200, some [1, 2, 3], none⟩, ⟨some [1, 2, 3], some 50⟩, 0) :=
  (cache_hit_ignores_limit (fun _ => Except.ok ([] : List Nat)) 60 10 "k1" "k1" _
      [1, 2, 3] 50 rfl rfl (by simp) (by omega) (by decide) rfl).2 5 (by norm_num)

/-! ## C2: the API-key gate on /view -/

/-- C2 counterexample: a request with the header missing is answered with
detail "Not authenticated" while a request with a wrong key gets "Invalid
API Key" — the two failure messages differ, so the responses DO distinguish
missing from invalid credentials; moreover a header value equal to the
configured secret does not always pass: the empty string is treated as
absent even when the secret is the empty string. -/
theorem auth_distinguishes_missing_from_invalid :
    ((read_view (fun _ => Except.ok ([] : List Nat)) 60 0 "sek" none 10
        ⟨none, none⟩).1.errorMsg ≠
      (read_view (fun _ => Except.ok ([] : List Nat)) 60 0 "sek" (some "zzz") 10
        ⟨none, none⟩).1.errorMsg) ∧
    (read_view (fun _ => Except.ok ([] : List Nat)) 60 0 "" (some "") 10
        (⟨none, none⟩ : CacheState Nat)).1.statusCode = 403 := by
  constructor
  · decide
  · rfl

/-- C2 (amended): every request to `/view` whose X-API-Key header is
missing, empty, or different from the configured API_KEY is answered with
status 403 and a fixed message, without touching the cache and without any
fetch; the message is fixed per failure case but differs between the cases
(missing/empty yields "Not authenticated", a non-empty mismatch yields
"Invalid API Key"); every non-empty header value equal to the secret passes
both layers of the auth check. -/
theorem view_auth_spec {Row : Type} (fetch : Int → Except String (List Row))
    (ttl now : Nat) (secret : String) (limit : Int) (st : CacheState Row) :
    (read_view fetch ttl now secret none limit st =
        (⟨403, none, some "Not authenticated"⟩, st, 0)) ∧
    (read_view fetch ttl now secret (some "") limit st =
        (⟨403, none, some "Not authenticated"⟩, st, 0)) ∧
    (∀ k : String, k ≠ "" → k ≠ secret →
        read_view fetch ttl now secret (some k) limit st =
          (⟨403, none, some "Invalid API Key"⟩, st, 0)) ∧
    (∀ k : String, k ≠ "" → k = secret →
        api_key_header (some k) = AuthResult.passed k ∧
        require_api_key secret k = AuthResult.passed k) := by
  refine ⟨rfl, ?_, ?_, ?_⟩
  · simp [read_view, api_key_header]
  · intro k hk hkne
    have h2 : require_api_key secret k = AuthResult.rejected 403 "Invalid API Key" := by
      simp [require_api_key, hkne]
    unfold read_view
    simp only [api_key_header_passes hk, h2]
  · intro k hk hks
    exact ⟨api_key_header_passes hk, require_api_key_passes hks⟩

/-- Witness for C2 (amended): a concrete wrong key is rejected with 403
"Invalid API Key" and the matching key "sek" passes both auth layers. -/
theorem view_auth_spec_witness :
    read_view (fun _ => Except.ok ([] : List Nat)) 60 0 "sek" (some "bad") 10
        (⟨none, none⟩ : CacheState Nat) =
      (⟨403, none, some "Invalid API Key"⟩, ⟨none, none⟩, 0) ∧
    require_api_key "sek" "sek" = AuthResult.passed "sek" :=
  ⟨(view_auth_spec (fun _ => Except.ok ([] : List Nat)) 60 0 "sek" 10
      ⟨none, none⟩).2.2.1 "bad" (by decide) (by decide),
   ((view_auth_spec (fun _ => Except.ok ([] : List Nat)) 60 0 "sek" 10
      (⟨none, none⟩ : CacheState Nat)).2.2.2 "sek" (by decide) rfl).2⟩

/-! ## C4: 500 on fetch failure, clean recovery afterwards -/

/-- C4: a valid-key request whose refresh fetch raises is answered 500 with
the error message as body, leaving the cache state untouched; any
subsequent valid-key request whose fetch succeeds is answered 200, with no
other intervention. -/
theorem view_error_then_recovery {Row : Type}
    (fetch fetch2 : Int → Except String (List Row)) (ttl now now2 : Nat)
    (secret k : String) (limit limit2 : Int) (st : CacheState Row)
    (msg : String) (d : List Row)
    (hk : k ≠ "") (hks : k = secret)
    (hm : cacheHit st now = false) (herr : fetch limit = Except.error msg)
    (hok : fetch2 limit2 = Except.ok d) :
    read_view fetch ttl now secret (some k) limit st =
      (⟨500, none, some msg⟩, st, 1) ∧
    (read_view fetch2 ttl now2 secret (some k) limit2 st).1.statusCode = 200 := by
  constructor
  · have hget : get_cached_data fetch ttl now limit st = ⟨Except.error msg, st, 1⟩ := by
      rw [get_cached_data_miss fetch ttl limit hm]
      unfold refreshCache
      rw [herr]
    exact read_view_auth_ok_of_error fetch ttl now secret k limit st msg st 1 hk hks hget
  · cases hc : cacheHit st now2 with
    | true =>
      have hget : get_cached_data fetch2 ttl now2 limit2 st =
          ⟨Except.ok (st.cache_data.getD []), st, 0⟩ := by
        unfold get_cached_data
        rw [hc]
        simp
      rw [read_view_auth_ok_of_ok fetch2 ttl now2 secret k limit2 st
        (st.cache_data.getD []) st 0 hk hks hget]
    | false =>
      have hget : get_cached_data fetch2 ttl now2 limit2 st =
          ⟨Except.ok d, ⟨some d, some (now2 + ttl)⟩, 1⟩ := by
        rw [get_cached_data_miss fetch2 ttl limit2 hc]
        unfold refreshCache
        rw [hok]
      rw [read_view_auth_ok_of_ok fetch2 ttl now2 secret k limit2 st d
        ⟨some d, some (now2 + ttl)⟩ 1 hk hks hget]

/-- Witness for C4: with an empty cache, a raising fetch yields 500 "db
down" and a later succeeding fetch yields 200. -/
theorem view_error_then_recovery_witness :
    read_view (fun _ => Except.error "db down") 60 5 "sek" (some "sek") 10
        (⟨none, none⟩ : CacheState Nat) =
      (⟨500, none, some "db down"⟩, ⟨none, none⟩, 1) ∧
    (read_view (fun _ => Except.ok [8]) 60 6 "sek" (some "sek") 10
        (⟨none, none⟩ : CacheState Nat)).1.statusCode = 200 :=
  view_error_then_recovery (fun _ => Except.error "db down") (fun _ => Except.ok [8])
    60 5 6 "sek" "sek" 10 10 ⟨none, none⟩ "db down" [8]
    (by decide) rfl (by decide) rfl rfl

/-! ## C6: fetch and 200 responses are bounded by the limit -/

/-- C6: `fetch_view_data` with a non-negative limit N returns a fully
materialized list of at most N rows, and every `/view` response that
carries a rows payload for a non-negative query limit N holds at most N row
objects. -/
theorem fetch_and_response_bounded {Row : Type} (view : List Row) (n : Nat)
    (fetch : Int → Except String (List Row)) (ttl now : Nat) (secret : String)
    (header : Option String) (limit : Int) (st : CacheState Row)
    (hl : 0 ≤ limit) :
    (fetch_view_data view n).length ≤ n ∧
    (∀ r : List Row, (read_view fetch ttl now secret header limit st).1.rows = some r →
        (r.length : Int) ≤ limit) := by
  refine ⟨List.length_take_le n view, ?_⟩
  intro r hr
  unfold read_view at hr
  split at hr
  · simp at hr
  · split at hr
    · simp at hr
    · split at hr
      · obtain rfl := Option.some_inj.mp hr
        exact pySlice_length_le_of_nonneg _ limit hl
      · simp at hr

/-- Witness for C6: fetching 2 of a 3-row view yields at most 2 rows. -/
theorem fetch_and_response_bounded_witness :
    (fetch_view_data [1, 2, 3] 2).length ≤ 2 :=
  (fetch_and_response_bounded [1, 2, 3] 2 (fun _ => Except.ok ([] : List Nat)) 60 0 "s"
      none 10 ⟨none, none⟩ (by decide)).1

/-! ## C10: a negative limit is sliced, not rejected -/

/-- C10: a valid-key request with limit = -k (k > 0) served from a cache
hit of rows l is answered 200 with the first l.length - k cached rows
(truncated subtraction, i.e. max(n - k, 0)) — the route never validates
that the limit is non-negative. -/
theorem negative_limit_slices_cache {Row : Type} (fetch : Int → Except String (List Row))
    (ttl now : Nat) (secret apik : String) (st : CacheState Row) (l : List Row)
    (e kneg : Nat)
    (hd : st.cache_data = some l) (hexp : st.cache_expiry = some e)
    (hne : l ≠ []) (hlt : now < e)
    (hk : apik ≠ "") (hks : apik = secret) (hpos : 0 < kneg) :
    read_view fetch ttl now secret (some apik) (-(kneg : Int)) st =
      (⟨200, some (l.take (l.length - kneg)), none⟩, st, 0) := by
  have hget := get_cached_data_hit fetch ttl (-(kneg : Int)) hd hexp hne hlt
  rw [read_view_auth_ok_of_ok fetch ttl now secret apik (-(kneg : Int)) st l st 0
    hk hks hget]
  have hneg : ¬ ((0 : Int) ≤ -(kneg : Int)) := by omega
  unfold pySlice
  rw [if_neg hneg, neg_neg, Int.toNat_natCast]

/-- Witness for C10: limit = -2 against three cached rows returns the first
row only, with status 200. -/
theorem negative_limit_slices_cache_witness :
    read_view (fun _ => Except.ok ([] : List Nat)) 60 10 "k1" (some "k1") (-2)
        (⟨some [1, 2, 3], some 50⟩ : CacheState Nat) =
      (⟨200, some [1], none⟩, ⟨some [1, 2, 3], some 50⟩, 0) := by
  have h := negative_limit_slices_cache (fun _ => Except.ok ([] : List Nat)) 60 10
    "k1" "k1" ⟨some [1, 2, 3], some 50⟩ [1, 2, 3] 50 2 rfl rfl (by simp) (by omega)
    (by decide) rfl (by omega)
  simpa using h

/-! ## C7: preload runs once, first, with limit 100 -/

/-- C7: when the startup fetch succeeds, `preload_cache` fetches with the
literal limit 100 — independent of every limit later requested — and
installs the snapshot with expiry t0 + CACHE_TTL; in the modelled process
lifecycle the preload fetch is the unique first fetch, issued before any
request-triggered fetch. -/
theorem preload_runs_once_first {Row : Type} (fetch : Int → Except String (List Row))
    (ttl t0 : Nat) (secret : String) (reqs : List (Nat × Int × Option String))
    (d : List Row) (hok : fetch 100 = Except.ok d) :
    preload_cache fetch ttl t0 =
      Except.ok ((⟨some d, some (t0 + ttl)⟩ : CacheState Row), [100]) ∧
    processRun fetch ttl t0 secret reqs =
      Except.ok (100 :: (serveRequests fetch ttl secret reqs ⟨some d, some (t0 + ttl)⟩).1,
        (serveRequests fetch ttl secret reqs ⟨some d, some (t0 + ttl)⟩).2) := by
  have h1 : (preload_cache fetch ttl t0 : Except String (CacheState Row × List Int)) =
      Except.ok (⟨some d, some (t0 + ttl)⟩, [100]) := by
    unfold preload_cache
    rw [hok]
  refine ⟨h1, ?_⟩
  unfold processRun
  rw [h1]
  simp

/-- Witness for C7: a process with no requests performs exactly the one
preload fetch of limit 100 and leaves expiry 0 + 60 = 60. -/
theorem preload_runs_once_first_witness :
    processRun (fun _ => Except.ok [9]) 60 0 "s" [] =
      (Except.ok ([100], (⟨some [9], some 60⟩ : CacheState Nat)) :
        Except String (List Int × CacheState Nat)) :=
  (preload_runs_once_first (fun _ => Except.ok [9]) 60 0 "s" [] [9] rfl).2

end DPTradeCalc
